import Mathlib

/-!
Shallow embedding of `xmrig_gui_v0.1.py` (class `XMRigGUI`).

The program is a tkinter form over a static option catalog.  Live inputs are
one of three widget kinds: `tk.Entry` (text), `tk.IntVar` (checkbox state) and
`ttk.Combobox` (dropdown).  The merged registry of the six tab dictionaries is
modelled as one association list from key to widget, in iteration order, with
pairwise distinct keys (the catalog guarantees this).  Settings documents are
association lists from key to a JSON value (string or int).  GUI side effects
(message boxes, process spawn and terminate) are recorded as an explicit
effect list.
-/

/-- Value stored in the settings document: JSON string or int, as produced by
`entry.get()` (str) and `IntVar.get()` (int). -/
inductive Value where
  | str (s : String)
  | int (n : Int)
  deriving DecidableEq, Repr

/-- Live input widget state: `tk.Entry` text, checkbox `tk.IntVar` int, or
`ttk.Combobox` display text. -/
inductive Widget where
  | entry (text : String)
  | intVar (val : Int)
  | combobox (text : String)
  deriving DecidableEq, Repr

/-- Merged live-input registry, in tab and row order. -/
abbrev Registry := List (String × Widget)

/-- Settings document, `self.settings`, as serialized to the JSON file. -/
abbrev Document := List (String × Value)

/-- Whitespace characters recognized by Python `str.strip()` (ASCII range). -/
def isPySpace (c : Char) : Bool :=
  c = ' ' || c = '\t' || c = '\n' || c = Char.ofNat 11 || c = Char.ofNat 12 || c = '\r'

/-- Python `s.strip()`: remove leading and trailing whitespace. -/
def pyStrip (s : String) : String :=
  String.mk (((s.data.dropWhile isPySpace).reverse.dropWhile isPySpace).reverse)

/-- Python truthiness of a document value: a string is truthy when non-empty,
an int when non-zero. -/
def truthy : Value → Bool
  | .str s => s != ""
  | .int n => n != 0

/-- Coercion of a value to the string a Tk text widget displays (Tcl
stringifies ints). -/
def valueToStr : Value → String
  | .str s => s
  | .int n => toString n

/-- Python `int(value)` on a document value; `none` models the uncaught
`ValueError` raised on a non-numeric string. -/
def pyToInt : Value → Option Int
  | .int n => some n
  | .str s => s.toInt?

/-- Value read from a widget: `entry.get()` for `tk.Entry` / `ttk.Combobox`
gives the display string, `IntVar.get()` gives the checkbox int. -/
def captureValue : Widget → Value
  | .entry s => .str s
  | .intVar n => .int n
  | .combobox s => .str s

/-- Python `self.settings.get(key, "")`: first binding of the key, defaulting
to the empty string. -/
def dictGet : Document → String → Value
  | [], _ => .str ""
  | (k2, v) :: rest, k => if k2 = k then v else dictGet rest k

/-- One iteration of the save loop (lines 86-94): a string value is skipped
when its strip is empty, every other value is stored under the key. -/
def saveEntry (p : String × Widget) : Option (String × Value) :=
  match captureValue p.2 with
  | .str s => if pyStrip s = "" then none else some (p.1, .str s)
  | .int n => some (p.1, .int n)

/-- The document built by `save_settings` from the merged registry (the
capture step; the file then receives exactly this document). -/
def save_settings (reg : Registry) : Document :=
  reg.filterMap saveEntry

/-- The file contents after `json.dump(self.settings, f)`: a flat
string-to-(string-or-int) object round-trips through JSON unchanged. -/
def persist (doc : Document) : Option Document :=
  some doc

/-- One widget update in `update_ui_with_settings` (lines 72-81): an entry is
cleared and refilled with the document value, a checkbox is set to
`int(value) if value else 0`, a combobox keeps its display when the value is
falsy.  `none` models the uncaught exception of `int` on a bad string. -/
def applyWidget (doc : Document) (k : String) : Widget → Option Widget
  | .entry _ => some (.entry (valueToStr (dictGet doc k)))
  | .intVar _ =>
    let v := dictGet doc k
    if truthy v then (pyToInt v).map Widget.intVar else some (.intVar 0)
  | .combobox s =>
    let v := dictGet doc k
    some (.combobox (if truthy v then valueToStr v else s))

/-- `update_ui_with_settings` over the merged registry, in order. -/
def update_ui_with_settings (doc : Document) : Registry → Option Registry
  | [] => some []
  | (k, w) :: rest =>
    match applyWidget doc k w with
    | none => none
    | some w2 =>
      match update_ui_with_settings doc rest with
      | none => none
      | some rest2 => some ((k, w2) :: rest2)

/-- Observable side effects: message boxes, process spawn, terminate call. -/
inductive Effect where
  | warning (msg : String)
  | error (msg : String)
  | info (msg : String)
  | spawn (cmd : List String)
  | terminate (pid : Nat)
  deriving DecidableEq, Repr

/-- Mutable state of the `XMRigGUI` object: `self.settings`, the merged live
inputs, and `self.process` (an OS process handle, by id). -/
structure GUIState where
  settings : Document
  registry : Registry
  process : Option Nat
  deriving DecidableEq, Repr

/-- Environment of a `run_xmrig` call: `alive p` says `p.poll() is None`,
`terminalOk` says `mate-terminal` is installed, `newPid` is the handle a
successful `subprocess.Popen` would return. -/
structure RunEnv where
  alive : Nat → Bool
  terminalOk : Bool
  newPid : Nat

/-- `load_settings`: a missing file (`file = none`) shows the error box and
changes nothing; otherwise `self.settings` is replaced by the parsed document
and the UI updated.  An outer `none` models the uncaught coercion error. -/
def load_settings (file : Option Document) (st : GUIState) :
    Option GUIState × List Effect :=
  match file with
  | none => (some st, [Effect.error "No parameter file found."])
  | some doc =>
    match update_ui_with_settings doc st.registry with
    | none => (none, [])
    | some reg2 => (some { st with settings := doc, registry := reg2 }, [])

/-- Command-line contribution of one input (lines 120-123): `--key` for a
checked checkbox, `--key=value` for any other widget with truthy value,
nothing otherwise. -/
def argOf (k : String) : Widget → Option String
  | .intVar n => if n != 0 then some ("--" ++ k) else none
  | .entry s => if s != "" then some ("--" ++ k ++ "=" ++ s) else none
  | .combobox s => if s != "" then some ("--" ++ k ++ "=" ++ s) else none

/-- The `command` list of `run_xmrig`: the binary token followed by the
per-input contributions in registry order. -/
def buildCommand (reg : Registry) : List String :=
  "./xmrig" :: reg.filterMap (fun p => argOf p.1 p.2)

/-- The spawn attempt of `run_xmrig` (lines 126-131): on success the handle is
set to the new pid, on `FileNotFoundError` the error box is shown and the
assignment to `self.process` never executes. -/
def spawnStep (env : RunEnv) (st : GUIState) : GUIState × List Effect :=
  if env.terminalOk then
    ({ st with process := some env.newPid },
      [Effect.spawn ["mate-terminal", "--", "bash", "-c",
        String.intercalate " " (buildCommand st.registry) ++ "; exec bash"]])
  else
    (st, [Effect.error "mate-terminal is not installed or not found."])

/-- `run_xmrig`: refuse when a handle exists and `poll()` is `None`, else
attempt the spawn. -/
def run_xmrig (env : RunEnv) (st : GUIState) : GUIState × List Effect :=
  match st.process with
  | some p =>
    if env.alive p then (st, [Effect.warning "XMRig is already running."])
    else spawnStep env st
  | none => spawnStep env st

/-- `stop_xmrig`: with a handle, terminate, clear it and report success;
without one, warn that nothing is running. -/
def stop_xmrig (st : GUIState) : GUIState × List Effect :=
  match st.process with
  | some p =>
    ({ st with process := none },
      [Effect.terminate p, Effect.info "XMRig stopped."])
  | none => (st, [Effect.warning "XMRig is not running."])

/-- Widget kind of an option-catalog row: a bare or 4-tuple row is a text
entry with the given default, `"checkbox"` rows are checkboxes, `"dropdown"`
rows carry their choice list. -/
inductive OptKind where
  | text (default : String)
  | checkbox
  | dropdown (choices : List String)
  deriving DecidableEq, Repr

/-- One row of the static option catalog: display label, documented CLI flag,
internal key, widget kind. -/
structure OptionDesc where
  label : String
  flag : String
  key : String
  kind : OptKind
  deriving DecidableEq, Repr

/-- Widget created by `add_options` for one catalog row: checkboxes start
unchecked regardless of defaults, dropdowns start at the first choice, text
entries are pre-filled with the default (the catalog never has an empty
choice list). -/
def renderWidget : OptKind → Widget
  | .text d => .entry d
  | .checkbox => .intVar 0
  | .dropdown choices => .combobox (choices.headD "")

/-- The registry built by `add_options` for one catalog group. -/
def add_options (options : List OptionDesc) : Registry :=
  options.map (fun d => (d.key, renderWidget d.kind))

/-- The static `network_options` table. -/
def network_options : List OptionDesc :=
  [⟨"URL", "-o", "url", .text "stratum+tcp://randomxmonero.auto.nicehash.com:9200"⟩,
   ⟨"Coin", "--coin", "coin", .text ""⟩,
   ⟨"Username", "-u", "user", .text "38bj4uu8uDsnC5NjoeGb8TMviBCEtMiaet"⟩,
   ⟨"Password", "-p", "pass", .text ""⟩,
   ⟨"Userpass", "-O", "userpass", .text ""⟩,
   ⟨"Proxy", "-x", "proxy", .text ""⟩,
   ⟨"Keepalive", "-k", "keepalive", .checkbox⟩,
   ⟨"Nicehash", "--nicehash", "nicehash", .checkbox⟩,
   ⟨"Rig ID", "--rig-id", "rig-id", .text ""⟩,
   ⟨"Algorithm", "-a", "algo", .dropdown
     ["gr", "rx/graft", "cn/upx2", "argon2/chukwav2", "cn/ccx", "kawpow",
      "rx/keva", "cn-pico/tlo", "rx/sfx", "rx/arq", "rx/0", "argon2/chukwa",
      "argon2/ninja", "rx/wow", "cn/fast", "cn/rwz", "cn/zls", "cn/double",
      "cn/r", "cn-pico", "cn/half", "cn/2", "cn/xao", "cn/rto",
      "cn-heavy/tube", "cn-heavy/xhv", "cn-heavy/0", "cn/1", "cn-lite/1",
      "cn-lite/0", "cn/0"]⟩]

/-- The static `cpu_options` table. -/
def cpu_options : List OptionDesc :=
  [⟨"Disable CPU", "--no-cpu", "no-cpu", .checkbox⟩,
   ⟨"Threads", "-t", "threads", .text ""⟩,
   ⟨"CPU Affinity", "--cpu-affinity", "cpu-affinity", .text ""⟩,
   ⟨"Algorithm Variation", "-v", "av", .text ""⟩,
   ⟨"CPU Priority", "--cpu-priority", "cpu-priority", .text ""⟩,
   ⟨"Max Threads Hint", "--cpu-max-threads-hint", "cpu-max-threads-hint", .text ""⟩,
   ⟨"CPU Memory Pool", "--cpu-memory-pool", "cpu-memory-pool", .text ""⟩,
   ⟨"CPU No Yield", "--cpu-no-yield", "cpu-no-yield", .checkbox⟩,
   ⟨"No Huge Pages", "--no-huge-pages", "no-huge-pages", .checkbox⟩,
   ⟨"Huge Page Size", "--hugepage-size", "hugepage-size", .text ""⟩,
   ⟨"Huge Pages JIT", "--huge-pages-jit", "huge-pages-jit", .checkbox⟩,
   ⟨"ASM Optimizations", "--asm", "asm", .dropdown
     ["auto", "none", "intel", "ryzen", "bulldozer"]⟩,
   ⟨"Argon2 Implementation", "--argon2-impl", "argon2-impl", .dropdown
     ["x86_64", "SSE2", "SSSE3", "XOP", "AVX2", "AVX-512F"]⟩,
   ⟨"RandomX Init", "--randomx-init", "randomx-init", .text ""⟩,
   ⟨"RandomX No NUMA", "--randomx-no-numa", "randomx-no-numa", .checkbox⟩,
   ⟨"RandomX Mode", "--randomx-mode", "randomx-mode", .dropdown
     ["auto", "fast", "light"]⟩,
   ⟨"RandomX 1GB Pages", "--randomx-1gb-pages", "randomx-1gb-pages", .checkbox⟩,
   ⟨"RandomX MSR", "--randomx-wrmsr", "randomx-wrmsr", .text ""⟩,
   ⟨"RandomX No RDMSR", "--randomx-no-rdmsr", "randomx-no-rdmsr", .checkbox⟩,
   ⟨"RandomX Cache QoS", "--randomx-cache-qos", "randomx-cache-qos", .checkbox⟩]

/-- The static `api_options` table. -/
def api_options : List OptionDesc :=
  [⟨"Worker ID", "--api-worker-id", "api-worker-id", .text ""⟩,
   ⟨"Instance ID", "--api-id", "api-id", .text ""⟩,
   ⟨"Host", "--http-host", "http-host", .text "127.0.0.1"⟩,
   ⟨"Port", "--http-port", "http-port", .text ""⟩,
   ⟨"Access Token", "--http-access-token", "http-access-token", .text ""⟩,
   ⟨"No Restricted", "--http-no-restricted", "http-no-restricted", .checkbox⟩]

/-- The static `tls_options` table. -/
def tls_options : List OptionDesc :=
  [⟨"TLS Gen", "--tls-gen", "tls-gen", .text ""⟩]

/-- The static `logging_options` table. -/
def logging_options : List OptionDesc :=
  [⟨"Syslog", "-S", "syslog", .checkbox⟩]

/-- The static `misc_options` table (empty). -/
def misc_options : List OptionDesc := []

/-! ### Association-list lemmas for the save and apply loops -/

theorem saveEntry_key (p : String × Widget) (q : String × Value)
    (h : saveEntry p = some q) : q.1 = p.1 := by
  obtain ⟨k, w⟩ := p
  cases w with
  | entry s =>
    by_cases hs : pyStrip s = ""
    · simp [saveEntry, captureValue, hs] at h
    · simp [saveEntry, captureValue, hs] at h
      simp only [← h]
  | intVar n =>
    simp [saveEntry, captureValue] at h
    simp only [← h]
  | combobox s =>
    by_cases hs : pyStrip s = ""
    · simp [saveEntry, captureValue, hs] at h
    · simp [saveEntry, captureValue, hs] at h
      simp only [← h]

theorem keys_save_subset (reg : Registry) (k : String)
    (h : k ∈ (save_settings reg).map Prod.fst) : k ∈ reg.map Prod.fst := by
  obtain ⟨q, hq, hqk⟩ := List.mem_map.mp h
  obtain ⟨p, hp, hpq⟩ := List.mem_filterMap.mp hq
  exact List.mem_map.mpr ⟨p, hp, by rw [← hqk, saveEntry_key p q hpq]⟩

theorem save_keys_nodup (reg : Registry) (hnd : (reg.map Prod.fst).Nodup) :
    ((save_settings reg).map Prod.fst).Nodup := by
  induction reg with
  | nil => simp [save_settings]
  | cons p rest ih =>
    rw [List.map_cons, List.nodup_cons] at hnd
    cases hse : saveEntry p with
    | none =>
      have hs : save_settings (p :: rest) = save_settings rest := by
        simp [save_settings, List.filterMap_cons, hse]
      rw [hs]; exact ih hnd.2
    | some q =>
      have hs : save_settings (p :: rest) = q :: save_settings rest := by
        simp [save_settings, List.filterMap_cons, hse]
      rw [hs, List.map_cons, List.nodup_cons]
      refine ⟨fun hqmem => ?_, ih hnd.2⟩
      have hsub := keys_save_subset rest q.1 hqmem
      rw [saveEntry_key p q hse] at hsub
      exact hnd.1 hsub

theorem mem_save_of_saveEntry_some (reg : Registry) (k : String) (w : Widget)
    (v : Value) (hmem : (k, w) ∈ reg) (hse : saveEntry (k, w) = some (k, v)) :
    (k, v) ∈ save_settings reg :=
  List.mem_filterMap.mpr ⟨(k, w), hmem, hse⟩

theorem mem_eq_of_nodup_keys (reg : Registry) (hnd : (reg.map Prod.fst).Nodup)
    (k : String) (w1 w2 : Widget) (h1 : (k, w1) ∈ reg) (h2 : (k, w2) ∈ reg) :
    w1 = w2 := by
  induction reg with
  | nil => cases h1
  | cons p rest ih =>
    obtain ⟨k0, w0⟩ := p
    rw [List.map_cons, List.nodup_cons] at hnd
    rcases List.mem_cons.mp h1 with he1 | hm1 <;>
      rcases List.mem_cons.mp h2 with he2 | hm2
    · injection he1 with ha1 hb1; injection he2 with ha2 hb2
      rw [hb1, hb2]
    · injection he1 with ha1 hb1
      exact absurd (List.mem_map.mpr ⟨(k, w2), hm2, ha1⟩) hnd.1
    · injection he2 with ha2 hb2
      exact absurd (List.mem_map.mpr ⟨(k, w1), hm1, ha2⟩) hnd.1
    · exact ih hnd.2 hm1 hm2

theorem not_mem_save (reg : Registry) (hnd : (reg.map Prod.fst).Nodup)
    (k : String) (w : Widget) (hmem : (k, w) ∈ reg)
    (hse : saveEntry (k, w) = none) : ∀ v, (k, v) ∉ save_settings reg := by
  intro v hv
  obtain ⟨p, hp, hpe⟩ := List.mem_filterMap.mp hv
  obtain ⟨k1, w1⟩ := p
  have hk : k = k1 := saveEntry_key (k1, w1) (k, v) hpe
  subst hk
  have hw : w1 = w := mem_eq_of_nodup_keys reg hnd k w1 w hp hmem
  rw [hw, hse] at hpe
  cases hpe

theorem dictGet_of_not_mem_keys (k : String) (doc : Document)
    (h : k ∉ doc.map Prod.fst) : dictGet doc k = .str "" := by
  induction doc with
  | nil => rfl
  | cons p rest ih =>
    obtain ⟨k0, v0⟩ := p
    rw [List.map_cons] at h
    have h0 : k0 ≠ k := fun he => h (he ▸ List.mem_cons_self _ _)
    rw [dictGet, if_neg h0]
    exact ih (fun hm => h (List.mem_cons_of_mem _ hm))

theorem dictGet_of_mem_nodup (k : String) (v : Value) (doc : Document)
    (hnd : (doc.map Prod.fst).Nodup) (hmem : (k, v) ∈ doc) :
    dictGet doc k = v := by
  induction doc with
  | nil => cases hmem
  | cons p rest ih =>
    obtain ⟨k0, v0⟩ := p
    rw [List.map_cons, List.nodup_cons] at hnd
    rcases List.mem_cons.mp hmem with heq | hmem2
    · injection heq with h1 h2
      rw [dictGet, if_pos h1.symm, h2]
    · have hk : k0 ≠ k := by
        intro he; subst he
        exact hnd.1 (List.mem_map.mpr ⟨(k0, v), hmem2, rfl⟩)
      rw [dictGet, if_neg hk]
      exact ih hnd.2 hmem2

theorem update_mem (doc : Document) (reg : Registry) :
    ∀ reg2, update_ui_with_settings doc reg = some reg2 →
    ∀ k w, (k, w) ∈ reg →
    ∃ w2, applyWidget doc k w = some w2 ∧ (k, w2) ∈ reg2 := by
  induction reg with
  | nil => intro reg2 h k w hmem; cases hmem
  | cons p rest ih =>
    obtain ⟨k0, w0⟩ := p
    intro reg2 h k w hmem
    cases happ : applyWidget doc k0 w0 with
    | none => simp [update_ui_with_settings, happ] at h
    | some w02 =>
      cases hrest : update_ui_with_settings doc rest with
      | none => simp [update_ui_with_settings, happ, hrest] at h
      | some rest2 =>
        simp only [update_ui_with_settings, happ, hrest] at h
        injection h with h
        subst h
        rcases List.mem_cons.mp hmem with heq | hmem2
        · injection heq with h1 h2
          subst h1; subst h2
          exact ⟨w02, happ, List.mem_cons_self _ _⟩
        · obtain ⟨w2, ha, hm⟩ := ih rest2 hrest k w hmem2
          exact ⟨w2, ha, List.mem_cons_of_mem _ hm⟩

theorem update_total (doc : Document) (reg : Registry)
    (h : ∀ p ∈ reg, (applyWidget doc p.1 p.2).isSome) :
    ∃ reg2, update_ui_with_settings doc reg = some reg2 := by
  induction reg with
  | nil => exact ⟨[], rfl⟩
  | cons p rest ih =>
    obtain ⟨k0, w0⟩ := p
    have h0 := h (k0, w0) (List.mem_cons_self _ _)
    obtain ⟨w2, hw2⟩ := Option.isSome_iff_exists.mp h0
    obtain ⟨rest2, hrest⟩ := ih (fun q hq => h q (List.mem_cons_of_mem _ hq))
    exact ⟨(k0, w2) :: rest2, by simp [update_ui_with_settings, hw2, hrest]⟩

/-! ### Behaviour of the saved document under lookup -/

theorem pyStrip_empty : pyStrip "" = "" := rfl

theorem ne_empty_of_pyStrip_ne (s : String) (h : pyStrip s ≠ "") : s ≠ "" :=
  fun he => h (by rw [he]; rfl)

theorem saveEntry_entry (k s : String) (hs : pyStrip s ≠ "") :
    saveEntry (k, Widget.entry s) = some (k, Value.str s) := by
  simp [saveEntry, captureValue, hs]

theorem saveEntry_combobox (k s : String) (hs : pyStrip s ≠ "") :
    saveEntry (k, Widget.combobox s) = some (k, Value.str s) := by
  simp [saveEntry, captureValue, hs]

theorem saveEntry_intVar (k : String) (n : Int) :
    saveEntry (k, Widget.intVar n) = some (k, Value.int n) := rfl

theorem dictGet_save_of_entry (reg : Registry) (hnd : (reg.map Prod.fst).Nodup)
    (k s : String) (hmem : (k, Widget.entry s) ∈ reg) (hs : pyStrip s ≠ "") :
    dictGet (save_settings reg) k = .str s :=
  dictGet_of_mem_nodup k (.str s) (save_settings reg) (save_keys_nodup reg hnd)
    (mem_save_of_saveEntry_some reg k (Widget.entry s) (.str s) hmem
      (saveEntry_entry k s hs))

theorem dictGet_save_of_combobox (reg : Registry)
    (hnd : (reg.map Prod.fst).Nodup) (k s : String)
    (hmem : (k, Widget.combobox s) ∈ reg) (hs : pyStrip s ≠ "") :
    dictGet (save_settings reg) k = .str s :=
  dictGet_of_mem_nodup k (.str s) (save_settings reg) (save_keys_nodup reg hnd)
    (mem_save_of_saveEntry_some reg k (Widget.combobox s) (.str s) hmem
      (saveEntry_combobox k s hs))

theorem dictGet_save_of_intVar (reg : Registry) (hnd : (reg.map Prod.fst).Nodup)
    (k : String) (n : Int) (hmem : (k, Widget.intVar n) ∈ reg) :
    dictGet (save_settings reg) k = .int n :=
  dictGet_of_mem_nodup k (.int n) (save_settings reg) (save_keys_nodup reg hnd)
    (mem_save_of_saveEntry_some reg k (Widget.intVar n) (.int n) hmem rfl)

/-! ### Pointwise behaviour of the apply step -/

theorem applyWidget_entry_eq (doc : Document) (k s : String) :
    applyWidget doc k (Widget.entry s) =
      some (.entry (valueToStr (dictGet doc k))) := rfl

theorem applyWidget_intVar_of_int (doc : Document) (k : String) (m n : Int)
    (h : dictGet doc k = .int n) :
    applyWidget doc k (Widget.intVar m) = some (Widget.intVar n) := by
  by_cases hn : n = 0
  · subst hn; simp [applyWidget, h, truthy]
  · simp [applyWidget, h, truthy, hn, pyToInt]

theorem applyWidget_combobox_of_str (doc : Document) (k c s : String)
    (h : dictGet doc k = .str s) (hs : s ≠ "") :
    applyWidget doc k (Widget.combobox c) = some (Widget.combobox s) := by
  simp [applyWidget, h, truthy, hs, valueToStr]

theorem applyWidget_save_isSome (reg : Registry)
    (hnd : (reg.map Prod.fst).Nodup) :
    ∀ p ∈ reg, (applyWidget (save_settings reg) p.1 p.2).isSome := by
  intro p hp
  obtain ⟨k, w⟩ := p
  cases w with
  | entry s => simp [applyWidget]
  | combobox s => simp [applyWidget]
  | intVar n =>
    rw [applyWidget_intVar_of_int (save_settings reg) k n n
      (dictGet_save_of_intVar reg hnd k n hp)]
    rfl

/-! ### Claim C1: the save-persist-load-apply round trip -/

/-- C1 (amended): for every key whose text or dropdown input holds a value
with non-empty strip, capture (`save_settings`) followed by persist, restore
and apply (`load_settings` with `update_ui_with_settings`) reproduces that
value exactly.  As literally stated for every non-empty value the claim fails
on whitespace-only values, see the counterexample. -/
theorem C1_roundtrip (st : GUIState) (hnd : (st.registry.map Prod.fst).Nodup)
    (k s : String) (hs : pyStrip s ≠ "") :
    ((k, Widget.entry s) ∈ st.registry →
      ∃ st2, (load_settings (persist (save_settings st.registry)) st).1 = some st2 ∧
        (k, Widget.entry s) ∈ st2.registry) ∧
    ((k, Widget.combobox s) ∈ st.registry →
      ∃ st2, (load_settings (persist (save_settings st.registry)) st).1 = some st2 ∧
        (k, Widget.combobox s) ∈ st2.registry) := by
  obtain ⟨reg2, hreg2⟩ := update_total (save_settings st.registry) st.registry
    (applyWidget_save_isSome st.registry hnd)
  have hload : (load_settings (persist (save_settings st.registry)) st).1 =
      some { st with settings := save_settings st.registry, registry := reg2 } := by
    simp [load_settings, persist, hreg2]
  constructor
  · intro hmem
    obtain ⟨w2, happ, hm2⟩ := update_mem _ _ reg2 hreg2 k (Widget.entry s) hmem
    have heq : applyWidget (save_settings st.registry) k (Widget.entry s) =
        some (Widget.entry s) := by
      rw [applyWidget_entry_eq, dictGet_save_of_entry st.registry hnd k s hmem hs]
      rfl
    rw [heq] at happ
    injection happ with happ
    subst happ
    exact ⟨_, hload, hm2⟩
  · intro hmem
    obtain ⟨w2, happ, hm2⟩ := update_mem _ _ reg2 hreg2 k (Widget.combobox s) hmem
    have heq : applyWidget (save_settings st.registry) k (Widget.combobox s) =
        some (Widget.combobox s) :=
      applyWidget_combobox_of_str _ k s s
        (dictGet_save_of_combobox st.registry hnd k s hmem hs)
        (ne_empty_of_pyStrip_ne s hs)
    rw [heq] at happ
    injection happ with happ
    subst happ
    exact ⟨_, hload, hm2⟩

/-- C1 witness: the round trip at a concrete one-entry registry. -/
theorem C1_roundtrip_witness :
    ∃ st2, (load_settings (persist (save_settings [("url", Widget.entry "X")]))
        ⟨[], [("url", Widget.entry "X")], none⟩).1 = some st2 ∧
      ("url", Widget.entry "X") ∈ st2.registry :=
  (C1_roundtrip ⟨[], [("url", Widget.entry "X")], none⟩ (by decide) "url" "X"
    (by decide)).1 (by decide)

/-- C1 counterexample: the key `pass` holds the non-empty value `" "`, yet the
round trip yields the entry text `""`: save skips whitespace-only values and
apply then clears the entry, so the prior value is not reproduced. -/
theorem C1_cex :
    (" " : String) ≠ "" ∧
    (load_settings (persist (save_settings [("pass", Widget.entry " ")]))
        ⟨[], [("pass", Widget.entry " ")], none⟩).1 =
      some ⟨[], [("pass", Widget.entry "")], none⟩ ∧
    Widget.entry " " ≠ Widget.entry "" := by
  refine ⟨by decide, by decide, by decide⟩

/-! ### Claim C2: what the capture step includes and omits -/

/-- C2: for a registry with distinct keys (the catalog invariant), the
document produced by `save_settings` omits every text/dropdown key whose
stripped value is empty, and always includes every checkbox key with its int
state, unchecked ones as 0 included. -/
theorem C2_capture (reg : Registry) (hnd : (reg.map Prod.fst).Nodup) :
    (∀ k s, ((k, Widget.entry s) ∈ reg ∨ (k, Widget.combobox s) ∈ reg) →
      pyStrip s = "" → ∀ v, (k, v) ∉ save_settings reg) ∧
    (∀ k n, (k, Widget.intVar n) ∈ reg →
      (k, Value.int n) ∈ save_settings reg) := by
  constructor
  · intro k s hmem hs v
    rcases hmem with h | h
    · exact not_mem_save reg hnd k (Widget.entry s) h
        (by simp [saveEntry, captureValue, hs]) v
    · exact not_mem_save reg hnd k (Widget.combobox s) h
        (by simp [saveEntry, captureValue, hs]) v
  · intro k n hmem
    exact mem_save_of_saveEntry_some reg k (Widget.intVar n) (Value.int n) hmem rfl

/-- C2 witness: a whitespace-only entry is omitted, an unchecked checkbox is
stored as 0. -/
theorem C2_capture_witness :
    (("pass", Value.str " ") ∉
      save_settings [("pass", Widget.entry " "), ("keepalive", Widget.intVar 0)]) ∧
    ("keepalive", Value.int 0) ∈
      save_settings [("pass", Widget.entry " "), ("keepalive", Widget.intVar 0)] :=
  ⟨(C2_capture [("pass", Widget.entry " "), ("keepalive", Widget.intVar 0)]
      (by decide)).1 "pass" " " (Or.inl (by decide)) (by decide) (Value.str " "),
   (C2_capture [("pass", Widget.entry " "), ("keepalive", Widget.intVar 0)]
      (by decide)).2 "keepalive" 0 (by decide)⟩

/-! ### String lemmas about command-line tokens -/

theorem strData_append (a b : String) : (a ++ b).data = a.data ++ b.data := rfl

theorem token_data_checkbox (k : String) :
    ("--" ++ k).data = '-' :: '-' :: k.data := by
  rw [strData_append]
  rfl

theorem token_data_value (k s : String) :
    ("--" ++ k ++ "=" ++ s).data = '-' :: '-' :: (k.data ++ '=' :: s.data) := by
  rw [strData_append, strData_append, strData_append]
  simp [List.append_assoc]

theorem append_sep_inj (sep : Char) :
    ∀ (a c b d : List Char), a ++ sep :: b = c ++ sep :: d →
      sep ∉ a → sep ∉ c → a = c ∧ b = d := by
  intro a
  induction a with
  | nil =>
    intro c b d h ha hc
    cases c with
    | nil =>
      rw [List.nil_append, List.nil_append] at h
      injection h with _ h
      exact ⟨rfl, h⟩
    | cons y c2 =>
      rw [List.nil_append, List.cons_append] at h
      injection h with h1 _
      exact absurd (h1 ▸ List.mem_cons_self y c2) hc
  | cons x a2 ih =>
    intro c b d h ha hc
    cases c with
    | nil =>
      rw [List.cons_append, List.nil_append] at h
      injection h with h1 _
      exact absurd (h1.symm ▸ List.mem_cons_self x a2) ha
    | cons y c2 =>
      rw [List.cons_append, List.cons_append] at h
      injection h with h1 h2
      obtain ⟨hac, hbd⟩ := ih c2 b d h2
        (fun hm => ha (List.mem_cons_of_mem _ hm))
        (fun hm => hc (List.mem_cons_of_mem _ hm))
      exact ⟨by rw [h1, hac], hbd⟩

theorem checkbox_token_inj (a b : String) (h : "--" ++ a = "--" ++ b) : a = b := by
  have hd := congrArg String.data h
  rw [token_data_checkbox, token_data_checkbox] at hd
  injection hd with _ hd
  injection hd with _ hd
  exact String.ext hd

theorem value_token_inj (a b c d : String) (ha : ('=' : Char) ∉ a.data)
    (hc : ('=' : Char) ∉ c.data)
    (h : "--" ++ a ++ "=" ++ b = "--" ++ c ++ "=" ++ d) : a = c ∧ b = d := by
  have hd := congrArg String.data h
  rw [token_data_value, token_data_value] at hd
  injection hd with _ hd
  injection hd with _ hd
  obtain ⟨h1, h2⟩ := append_sep_inj '=' a.data c.data b.data d.data hd ha hc
  exact ⟨String.ext h1, String.ext h2⟩

theorem mem_of_checkbox_eq_value (a c d : String)
    (h : "--" ++ a = "--" ++ c ++ "=" ++ d) : ('=' : Char) ∈ a.data := by
  have hd := congrArg String.data h
  rw [token_data_checkbox, token_data_value] at hd
  injection hd with _ hd
  injection hd with _ hd
  rw [hd]
  exact List.mem_append_right _ (List.mem_cons_self _ _)

theorem xmrig_ne_checkbox_token (a : String) : "--" ++ a ≠ "./xmrig" := by
  intro h
  have hd := congrArg String.data h
  rw [token_data_checkbox] at hd
  have hx : ("./xmrig" : String).data = ['.', '/', 'x', 'm', 'r', 'i', 'g'] := rfl
  rw [hx] at hd
  injection hd with h1 _
  exact absurd h1 (by decide)

theorem xmrig_ne_value_token (a b : String) : "--" ++ a ++ "=" ++ b ≠ "./xmrig" := by
  intro h
  have hd := congrArg String.data h
  rw [token_data_value] at hd
  have hx : ("./xmrig" : String).data = ['.', '/', 'x', 'm', 'r', 'i', 'g'] := rfl
  rw [hx] at hd
  injection hd with h1 _
  exact absurd h1 (by decide)

/-! ### Decomposition of the assembled command line -/

theorem mem_buildCommand (reg : Registry) (t : String) (h : t ∈ buildCommand reg) :
    t = "./xmrig" ∨ ∃ p, p ∈ reg ∧ argOf p.1 p.2 = some t := by
  rcases List.mem_cons.mp h with h1 | h2
  · exact Or.inl h1
  · obtain ⟨p, hp, hpe⟩ := List.mem_filterMap.mp h2
    exact Or.inr ⟨p, hp, hpe⟩

theorem argOf_eq_some (k : String) (w : Widget) (t : String)
    (h : argOf k w = some t) :
    (∃ n, w = .intVar n ∧ n ≠ 0 ∧ t = "--" ++ k) ∨
    (∃ s, (w = .entry s ∨ w = .combobox s) ∧ s ≠ "" ∧
      t = "--" ++ k ++ "=" ++ s) := by
  cases w with
  | intVar n =>
    by_cases hn : n = 0
    · subst hn; simp [argOf] at h
    · refine Or.inl ⟨n, rfl, hn, ?_⟩
      simp [argOf, hn] at h
      exact h.symm
  | entry s =>
    by_cases hs : s = ""
    · subst hs; simp [argOf] at h
    · refine Or.inr ⟨s, Or.inl rfl, hs, ?_⟩
      simp [argOf, hs] at h
      exact h.symm
  | combobox s =>
    by_cases hs : s = ""
    · subst hs; simp [argOf] at h
    · refine Or.inr ⟨s, Or.inr rfl, hs, ?_⟩
      simp [argOf, hs] at h
      exact h.symm

/-! ### Claim C3: checkbox contributions to the command line -/

/-- C3: in a registry with distinct, `=`-free keys (the catalog invariant),
a checked checkbox contributes the token `--key` to the command of
`run_xmrig`, and an unchecked one contributes no token for its key. -/
theorem C3_checkbox_args (reg : Registry) (hnd : (reg.map Prod.fst).Nodup)
    (hkeys : ∀ p ∈ reg, ('=' : Char) ∉ p.1.data)
    (k : String) (n : Int) (hmem : (k, Widget.intVar n) ∈ reg) :
    (n ≠ 0 → ("--" ++ k) ∈ buildCommand reg) ∧
    (n = 0 → ("--" ++ k) ∉ buildCommand reg) := by
  constructor
  · intro hn
    exact List.mem_cons_of_mem _
      (List.mem_filterMap.mpr ⟨(k, .intVar n), hmem, by simp [argOf, hn]⟩)
  · intro hn hbad
    rcases mem_buildCommand reg _ hbad with h1 | ⟨p, hp, hpe⟩
    · exact xmrig_ne_checkbox_token k h1
    · obtain ⟨k1, w1⟩ := p
      rcases argOf_eq_some k1 w1 _ hpe with ⟨m, hw, hm, ht⟩ | ⟨s, hw, hs, ht⟩
      · have hk : k = k1 := checkbox_token_inj k k1 ht
        subst hk
        rw [hw] at hp
        have heqw := mem_eq_of_nodup_keys reg hnd k (Widget.intVar m)
          (Widget.intVar n) hp hmem
        injection heqw with heq
        exact hm (heq.trans hn)
      · exact hkeys (k, Widget.intVar n) hmem (mem_of_checkbox_eq_value k k1 s ht)

/-- C3 witness: concrete checked and unchecked checkboxes. -/
theorem C3_checkbox_args_witness :
    ("--" ++ "keepalive") ∈
      buildCommand [("keepalive", Widget.intVar 1), ("nicehash", Widget.intVar 0)] ∧
    ("--" ++ "nicehash") ∉
      buildCommand [("keepalive", Widget.intVar 1), ("nicehash", Widget.intVar 0)] :=
  ⟨(C3_checkbox_args [("keepalive", Widget.intVar 1), ("nicehash", Widget.intVar 0)]
      (by decide) (by decide) "keepalive" 1 (by decide)).1 (by decide),
   (C3_checkbox_args [("keepalive", Widget.intVar 1), ("nicehash", Widget.intVar 0)]
      (by decide) (by decide) "nicehash" 0 (by decide)).2 rfl⟩

/-! ### Claim C4: text and dropdown contributions to the command line -/

/-- C4 counterexample: the `url` option documents the flag `-o` in the
catalog, its value `X` is non-empty, yet the assembled command holds the token
`--url=X`, not the token `url=X` of the claim (nor anything built from the
flag `-o`). -/
theorem C4_cex :
    (∃ d ∈ network_options, d.key = "url" ∧ d.flag = "-o") ∧
    buildCommand [("url", Widget.entry "X")] = ["./xmrig", "--url=X"] ∧
    "url=X" ∉ buildCommand [("url", Widget.entry "X")] :=
  ⟨by decide, by decide, by decide⟩

/-- C4 (amended): in a registry with distinct, `=`-free keys, a text or
dropdown input with non-empty display value contributes the token
`--key=value` built from the internal key (not from the catalog flag field),
and contributes no `--key=...` token when its value is empty. -/
theorem C4_value_args (reg : Registry) (hnd : (reg.map Prod.fst).Nodup)
    (hkeys : ∀ p ∈ reg, ('=' : Char) ∉ p.1.data) (k s : String)
    (hmem : (k, Widget.entry s) ∈ reg ∨ (k, Widget.combobox s) ∈ reg) :
    (s ≠ "" → ("--" ++ k ++ "=" ++ s) ∈ buildCommand reg) ∧
    (s = "" → ∀ v, ("--" ++ k ++ "=" ++ v) ∉ buildCommand reg) := by
  constructor
  · intro hs
    rcases hmem with hm | hm
    · exact List.mem_cons_of_mem _
        (List.mem_filterMap.mpr ⟨(k, .entry s), hm, by simp [argOf, hs]⟩)
    · exact List.mem_cons_of_mem _
        (List.mem_filterMap.mpr ⟨(k, .combobox s), hm, by simp [argOf, hs]⟩)
  · intro hsv v hbad
    subst hsv
    rcases mem_buildCommand reg _ hbad with h1 | ⟨p, hp, hpe⟩
    · exact xmrig_ne_value_token k v h1
    · obtain ⟨k1, w1⟩ := p
      have hk : ('=' : Char) ∉ k.data := by
        rcases hmem with hm | hm
        · exact hkeys (k, Widget.entry "") hm
        · exact hkeys (k, Widget.combobox "") hm
      have hk1 : ('=' : Char) ∉ k1.data := hkeys (k1, w1) hp
      rcases argOf_eq_some k1 w1 _ hpe with ⟨m, hw, hm1, ht⟩ | ⟨s1, hw, hs1, ht⟩
      · exact hk1 (mem_of_checkbox_eq_value k1 k v ht.symm)
      · obtain ⟨hkk, hvv⟩ := value_token_inj k v k1 s1 hk hk1 ht
        subst hkk
        rcases hmem with hm | hm <;> rcases hw with hw1 | hw1 <;> rw [hw1] at hp
        · have he := mem_eq_of_nodup_keys reg hnd k (Widget.entry s1)
            (Widget.entry "") hp hm
          injection he with he
          exact hs1 he
        · have he := mem_eq_of_nodup_keys reg hnd k (Widget.combobox s1)
            (Widget.entry "") hp hm
          injection he
        · have he := mem_eq_of_nodup_keys reg hnd k (Widget.entry s1)
            (Widget.combobox "") hp hm
          injection he
        · have he := mem_eq_of_nodup_keys reg hnd k (Widget.combobox s1)
            (Widget.combobox "") hp hm
          injection he with he
          exact hs1 he

/-- C4 witness: a non-empty and an empty text field at concrete inputs. -/
theorem C4_value_args_witness :
    ("--" ++ "url" ++ "=" ++ "X") ∈
      buildCommand [("url", Widget.entry "X"), ("coin", Widget.entry "")] ∧
    ("--" ++ "coin" ++ "=" ++ "v") ∉
      buildCommand [("url", Widget.entry "X"), ("coin", Widget.entry "")] :=
  ⟨(C4_value_args [("url", Widget.entry "X"), ("coin", Widget.entry "")]
      (by decide) (by decide) "url" "X" (Or.inl (by decide))).1 (by decide),
   (C4_value_args [("url", Widget.entry "X"), ("coin", Widget.entry "")]
      (by decide) (by decide) "coin" "" (Or.inl (by decide))).2 rfl "v"⟩

/-! ### Claim C5: the apply step on empty and absent document values -/

theorem applyWidget_combobox_of_empty (doc : Document) (k c : String)
    (h : dictGet doc k = .str "") :
    applyWidget doc k (Widget.combobox c) = some (Widget.combobox c) := by
  simp [applyWidget, h, truthy]

theorem applyWidget_intVar_of_empty (doc : Document) (k : String) (n : Int)
    (h : dictGet doc k = .str "") :
    applyWidget doc k (Widget.intVar n) = some (Widget.intVar 0) := by
  simp [applyWidget, h, truthy]

/-- C5 counterexample: the key `pass` is absent from the (empty) document,
yet `update_ui_with_settings` does not leave the text entry untouched: it
clears the displayed value `abc` to the empty string. -/
theorem C5_cex :
    update_ui_with_settings [] [("pass", Widget.entry "abc")] =
      some [("pass", Widget.entry "")] ∧
    Widget.entry "" ≠ Widget.entry "abc" :=
  ⟨by decide, by decide⟩

/-- C5 (amended): under `update_ui_with_settings`, a text entry is cleared
and set to the document value, so an empty or absent value resets it to the
empty string rather than leaving it; a dropdown keeps its current display
when the value is empty or absent; a checkbox coerces the stored value to
int, defaulting to 0 when the value is empty or absent. -/
theorem C5_apply (doc : Document) (reg reg2 : Registry) (k : String)
    (hup : update_ui_with_settings doc reg = some reg2) :
    (∀ s, (k, Widget.entry s) ∈ reg → dictGet doc k = .str "" →
      (k, Widget.entry "") ∈ reg2) ∧
    (∀ s, (k, Widget.combobox s) ∈ reg → dictGet doc k = .str "" →
      (k, Widget.combobox s) ∈ reg2) ∧
    (∀ n, (k, Widget.intVar n) ∈ reg → dictGet doc k = .str "" →
      (k, Widget.intVar 0) ∈ reg2) ∧
    (∀ n m, (k, Widget.intVar n) ∈ reg → dictGet doc k = .int m →
      (k, Widget.intVar m) ∈ reg2) := by
  refine ⟨?_, ?_, ?_, ?_⟩
  · intro s hm hg
    obtain ⟨w2, happ, hmem2⟩ := update_mem doc reg reg2 hup k (Widget.entry s) hm
    rw [applyWidget_entry_eq, hg] at happ
    injection happ with happ
    rw [← happ] at hmem2
    exact hmem2
  · intro s hm hg
    obtain ⟨w2, happ, hmem2⟩ := update_mem doc reg reg2 hup k (Widget.combobox s) hm
    rw [applyWidget_combobox_of_empty doc k s hg] at happ
    injection happ with happ
    rw [← happ] at hmem2
    exact hmem2
  · intro n hm hg
    obtain ⟨w2, happ, hmem2⟩ := update_mem doc reg reg2 hup k (Widget.intVar n) hm
    rw [applyWidget_intVar_of_empty doc k n hg] at happ
    injection happ with happ
    rw [← happ] at hmem2
    exact hmem2
  · intro n m hm hg
    obtain ⟨w2, happ, hmem2⟩ := update_mem doc reg reg2 hup k (Widget.intVar n) hm
    rw [applyWidget_intVar_of_int doc k n m hg] at happ
    injection happ with happ
    rw [← happ] at hmem2
    exact hmem2

/-- C5 witness: apply at concrete documents and one-input registries. -/
theorem C5_apply_witness :
    ("pass", Widget.entry "") ∈ ([("pass", Widget.entry "")] : Registry) ∧
    ("algo", Widget.combobox "gr") ∈ ([("algo", Widget.combobox "gr")] : Registry) ∧
    ("keepalive", Widget.intVar 0) ∈ ([("keepalive", Widget.intVar 0)] : Registry) ∧
    ("syslog", Widget.intVar 7) ∈ ([("syslog", Widget.intVar 7)] : Registry) :=
  ⟨(C5_apply [] [("pass", Widget.entry "x")] [("pass", Widget.entry "")] "pass"
      (by decide)).1 "x" (by decide) (by decide),
   (C5_apply [] [("algo", Widget.combobox "gr")] [("algo", Widget.combobox "gr")]
      "algo" (by decide)).2.1 "gr" (by decide) (by decide),
   (C5_apply [("keepalive", Value.str "")] [("keepalive", Widget.intVar 1)]
      [("keepalive", Widget.intVar 0)] "keepalive" (by decide)).2.2.1 1
      (by decide) (by decide),
   (C5_apply [("syslog", Value.int 7)] [("syslog", Widget.intVar 1)]
      [("syslog", Widget.intVar 7)] "syslog" (by decide)).2.2.2 1 7
      (by decide) (by decide)⟩

/-! ### Claim C6: run while already running -/

/-- C6: when a handle exists and its process is alive, `run_xmrig` shows the
AlreadyRunning warning, spawns nothing, and leaves the state, handle
included, unchanged. -/
theorem C6_already_running (env : RunEnv) (st : GUIState) (p : Nat)
    (hp : st.process = some p) (halive : env.alive p = true) :
    run_xmrig env st = (st, [Effect.warning "XMRig is already running."]) ∧
    ∀ c, Effect.spawn c ∉ (run_xmrig env st).2 := by
  have h : run_xmrig env st = (st, [Effect.warning "XMRig is already running."]) := by
    simp [run_xmrig, hp, halive]
  refine ⟨h, ?_⟩
  intro c hc
  rw [h] at hc
  simp at hc

/-- C6 witness: a live process with handle 3. -/
theorem C6_already_running_witness :
    run_xmrig ⟨fun _ => true, true, 9⟩ ⟨[], [], some 3⟩ =
      (⟨[], [], some 3⟩, [Effect.warning "XMRig is already running."]) :=
  (C6_already_running ⟨fun _ => true, true, 9⟩ ⟨[], [], some 3⟩ 3 rfl rfl).1

/-! ### Claim C7: restore with a missing settings file -/

/-- C7: on a missing file `load_settings` produces exactly the non-fatal
error notice and returns the state unchanged: same in-memory document, same
live inputs, same process handle. -/
theorem C7_missing_file (st : GUIState) :
    load_settings none st = (some st, [Effect.error "No parameter file found."]) := rfl

/-! ### Claim C8: run with the terminal program missing -/

/-- C8 counterexample: with a stale dead handle 7 and no terminal installed,
the failed `run_xmrig` shows the terminal-not-found notice but the process
handle is still set to 7, not cleared. -/
theorem C8_cex :
    (run_xmrig ⟨fun _ => false, false, 0⟩ ⟨[], [], some 7⟩).2 =
      [Effect.error "mate-terminal is not installed or not found."] ∧
    (run_xmrig ⟨fun _ => false, false, 0⟩ ⟨[], [], some 7⟩).1.process = some 7 :=
  ⟨rfl, rfl⟩

/-- C8 (amended): when the terminal program is missing and the guard does not
fire (no handle, or a dead one), `run_xmrig` reports the terminal-not-found
notice and leaves the whole state, the process handle included, unchanged
from before the call; in particular it sets no new handle. -/
theorem C8_terminal_missing (env : RunEnv) (st : GUIState)
    (hterm : env.terminalOk = false)
    (hrun : st.process = none ∨ ∃ p, st.process = some p ∧ env.alive p = false) :
    run_xmrig env st =
      (st, [Effect.error "mate-terminal is not installed or not found."]) := by
  rcases hrun with hn | ⟨p, hp, hdead⟩
  · simp [run_xmrig, hn, spawnStep, hterm]
  · simp [run_xmrig, hp, hdead, spawnStep, hterm]

/-- C8 witness: no prior handle, terminal missing. -/
theorem C8_terminal_missing_witness :
    run_xmrig ⟨fun _ => false, false, 0⟩ ⟨[], [], none⟩ =
      (⟨[], [], none⟩, [Effect.error "mate-terminal is not installed or not found."]) :=
  C8_terminal_missing ⟨fun _ => false, false, 0⟩ ⟨[], [], none⟩ rfl (Or.inl rfl)

/-! ### Claim C9: stop with no process handle -/

/-- C9: with no process handle, `stop_xmrig` yields only the NotRunning
warning, performs no terminate call, and leaves the state unchanged. -/
theorem C9_stop_idle (st : GUIState) (h : st.process = none) :
    stop_xmrig st = (st, [Effect.warning "XMRig is not running."]) ∧
    ∀ p, Effect.terminate p ∉ (stop_xmrig st).2 := by
  have hs : stop_xmrig st = (st, [Effect.warning "XMRig is not running."]) := by
    simp [stop_xmrig, h]
  refine ⟨hs, ?_⟩
  intro p hp
  rw [hs] at hp
  simp at hp

/-- C9 witness: the empty state with no handle. -/
theorem C9_stop_idle_witness :
    stop_xmrig ⟨[], [], none⟩ = (⟨[], [], none⟩, [Effect.warning "XMRig is not running."]) :=
  (C9_stop_idle ⟨[], [], none⟩ rfl).1

/-! ### Claim C10: stop decides on handle presence alone -/

/-- C10: `stop_xmrig` never consults liveness: for every non-null handle,
dead or alive, it issues the terminate call, clears the handle and reports
success, and the NotRunning warning appears exactly when the handle is null. -/
theorem C10_stop_presence (st : GUIState) :
    (∀ p, st.process = some p →
      stop_xmrig st = ({ st with process := none },
        [Effect.terminate p, Effect.info "XMRig stopped."])) ∧
    (st.process = none ↔
      (stop_xmrig st).2 = [Effect.warning "XMRig is not running."]) := by
  constructor
  · intro p hp
    simp [stop_xmrig, hp]
  · cases hp : st.process with
    | none => simp [stop_xmrig, hp]
    | some p => simp [stop_xmrig, hp]

/-- C10 witness: stopping with the (possibly dead) handle 5 terminates it and
clears the handle. -/
theorem C10_stop_presence_witness :
    stop_xmrig ⟨[], [], some 5⟩ =
      (⟨[], [], none⟩, [Effect.terminate 5, Effect.info "XMRig stopped."]) :=
  (C10_stop_presence ⟨[], [], some 5⟩).1 5 rfl
